import Mathlib

/-!
Verification of the jira-rag retrieval core.

This file gives a shallow embedding of the retrieval-relevant parts of the
repository (search_rag.py, gemini_test.py, app.py, vector_db_builder.py) and
proves or refutes the stated properties of the design.

Modelling conventions:
- Python dicts used as records become Lean structures with the same field
  names where Lean allows it.
- Similarity scores (numpy float32 values that the code only compares and
  copies, never does arithmetic on) are modelled as rationals, which preserves
  the ordering semantics of the comparisons.
- The FAISS index search output (the parallel arrays scores[0], indices[0] of
  search_rag.py) is modelled as an explicit candidate list of (score, index)
  pairs; the index entries are Int because FAISS returns the sentinel -1 for
  missing neighbours.
- File IO and the embedding model are modelled as explicit parameters: a
  loaded snapshot is a documents list plus the candidate list its index
  produces for the query under consideration, and the embedding model is an
  abstract function from text to an abstract vector type.
- Python's list.sort(key=..., reverse=True) is a stable descending sort by
  key; it is modelled with List.mergeSort under the total comparator
  "b.similarity_score <= a.similarity_score", which is exactly the stable
  descending-by-key sort.
-/

namespace JiraRag

/-- Per-source metadata attached to a normalized document, mirroring the
metadata dicts assembled in vector_db_builder.py (one shape per source). -/
inductive Metadata where
  | jira (status priority issue_type assignee reporter created updated : String)
      (labels components : List String)
  | confluence (space_key space_name version created : String)
  | text_file (filename file_type : String)
  | csv_file (filename file_type : String)
deriving DecidableEq

/-- The uniform document record produced by the normalizer in
vector_db_builder.py (the dicts with keys text/source/source_id/title/url/
metadata). -/
structure Doc where
  text : String
  source : String
  source_id : String
  title : String
  url : String
  metadata : Metadata
deriving DecidableEq

/-- A search result of search_similar: in the Python code it is a copy of the
document dict with the extra key similarity_score; here the copied document
fields are kept as one component. -/
structure SearchResult where
  doc : Doc
  similarity_score : ℚ
deriving DecidableEq

/-- A search result of search_documents (search_rag.py line 107 onwards): the
enriched dict carries rank = enumerate position + 1 and similarity_score next
to projections of the dereferenced document; the projected fields are kept
as the document component. -/
structure DocSearchResult where
  rank : Nat
  similarity_score : ℚ
  doc : Doc
deriving DecidableEq

/-- Python sequence indexing documents[idx] with possibly negative idx:
nonnegative indices index from the front, indices in [-len, -1] index from the
back, anything else is out of range (none models the IndexError path, which no
claim exercises). -/
def pyGet {α : Type} (l : List α) (i : Int) : Option α :=
  if 0 ≤ i then l[i.toNat]?
  else if 0 ≤ i + (l.length : Int) then l[(i + (l.length : Int)).toNat]?
  else none

/-- Loop body of search_similar (search_rag.py lines 35-39): a candidate
(score, idx) is kept when idx < len(documents) and score >= threshold, in
which case documents[idx] is dereferenced (Python negative indexing) and gets
similarity_score attached. -/
def keepCandidate (documents : List Doc) (threshold : ℚ) (sc : ℚ × Int) :
    Option SearchResult :=
  if sc.2 < (documents.length : Int) ∧ threshold ≤ sc.1 then
    (pyGet documents sc.2).map (fun d => { doc := d, similarity_score := sc.1 })
  else none

/-- The results list of search_similar as built by the for loop, before
sorting (search_rag.py lines 34-39). -/
def search_similar_raw (documents : List Doc) (threshold : ℚ)
    (cands : List (ℚ × Int)) : List SearchResult :=
  cands.filterMap (keepCandidate documents threshold)

/-- Comparator modelling results.sort(key=lambda x: x['similarity_score'],
reverse=True): a may come before b exactly when b's score is at most a's. -/
def scoreDescLe (a b : SearchResult) : Bool :=
  decide (b.similarity_score ≤ a.similarity_score)

/-- search_similar (search_rag.py lines 10-45), parameterized by the loaded
documents array and the candidate list returned by index.search for the
query: filter by bounds check and threshold, dereference, then stable sort by
similarity_score descending. -/
def search_similar (documents : List Doc) (threshold : ℚ)
    (cands : List (ℚ × Int)) : List SearchResult :=
  (search_similar_raw documents threshold cands).mergeSort scoreDescLe

/-- The results list of search_documents (search_rag.py lines 106-169): the
loop enumerates candidates, keeps those with idx < len(documents) (no
threshold test), dereferences documents[idx] and records rank i + 1. The
enriched string fields of the result dict are projections of the dereferenced
document and are represented by the doc component. -/
def search_documents_raw (documents : List Doc) (cands : List (ℚ × Int)) :
    List DocSearchResult :=
  cands.enum.filterMap (fun isc =>
    if isc.2.2 < (documents.length : Int) then
      (pyGet documents isc.2.2).map
        (fun d => { rank := isc.1 + 1, similarity_score := isc.2.1, doc := d })
    else none)

/-- search_tickets (search_rag.py lines 47-83): the body runs search_similar
inside try/except; any exception raised while loading the snapshot (missing
pointer record, unreadable index or documents file) is caught, a message is
printed, and the empty list is returned. The load outcome is modelled as an
Except value: error carries the exception text, ok carries the loaded
documents and the index search output. When the body returns normally its
value is the search_similar result (the early return [] for empty results
returns the same empty list). -/
def search_tickets (load : Except String (List Doc × List (ℚ × Int)))
    (threshold : ℚ) : List SearchResult :=
  match load with
  | Except.error _ => []
  | Except.ok p => search_similar p.1 threshold p.2

/-- The /search-tickets route body (app.py lines 217-222): run search_similar
at threshold 0.4; when that returns no results run it once more at threshold
0.3; respond with whichever result list that leaves. Both passes run over the
same loaded snapshot and the same deterministic index output for the query,
so they share the documents and candidates parameters. -/
def search_tickets_route (documents : List Doc) (cands : List (ℚ × Int)) :
    List SearchResult :=
  let first := search_similar documents (2/5) cands
  if first.isEmpty then search_similar documents (3/10) cands else first

/-- Dedup loop of search_related_tickets (gemini_test.py lines 68-74): walk
the concatenated results keeping a result whenever its url is not in the seen
set, then adding the url to the set. -/
def dedupGo : List SearchResult → List String → List SearchResult
  | [], _ => []
  | r :: rest, seen =>
    if r.doc.url ∈ seen then dedupGo rest seen
    else r :: dedupGo rest (r.doc.url :: seen)

/-- search_related_tickets (gemini_test.py lines 52-76): run the retrieval for
each query in order, concatenate the result lists in query order, then
deduplicate by url with a seen set starting empty. The per-query retrieval
(search_with_fixed_threshold) is abstracted as the retrieve parameter. -/
def search_related_tickets (retrieve : String → List SearchResult)
    (queries : List String) : List SearchResult :=
  dedupGo ((queries.map retrieve).flatten) []

/-- Whitespace class of Python's str.strip and the regex class \s, restricted
to its ASCII members (space, tab, newline, carriage return, vertical tab,
form feed). -/
def pyIsSpace (c : Char) : Bool :=
  c == ' ' || c == '\t' || c == '\n' || c == '\r' || c == '\x0b' || c == '\x0c'

/-- Word-character class of the regex class \w, restricted to its ASCII
members (letters, digits, underscore). -/
def pyIsWord (c : Char) : Bool :=
  c.isAlphanum || c == '_'

/-- Drop characters up to and including the first greater-than sign; none when
there is no greater-than sign left. Helper for the tag-stripping regex. -/
def dropThroughGt : List Char → Option (List Char)
  | [] => none
  | c :: cs => if c = '>' then some cs else dropThroughGt cs

/-- Attempt of the regex <[^>]+> just after its opening angle bracket: the
match succeeds when at least one non-greater-than character is followed by a
greater-than sign; the returned list is the text after the match. -/
def tagMatch : List Char → Option (List Char)
  | [] => none
  | c :: cs => if c = '>' then none else dropThroughGt (c :: cs)

/-- Scanner for the first substitution of clean_text: at an opening angle
bracket whose tail matches <[^>]+>, emit one space and continue after the
match; otherwise emit the character and continue. The fuel argument only
bounds the recursion depth: every step consumes at least one character per
fuel unit, so with initial fuel = length the fuel-exhausted branch is never
reached. -/
def stripTagsGo : Nat → List Char → List Char
  | _, [] => []
  | 0, l => l
  | n + 1, c :: cs =>
    if c = '<' then
      match tagMatch cs with
      | some rest => ' ' :: stripTagsGo n rest
      | none => '<' :: stripTagsGo n cs
    else c :: stripTagsGo n cs

/-- First substitution of clean_text (vector_db_builder.py line 29):
re.sub of the pattern <[^>]+> by a single space, scanning left to right and
replacing non-overlapping matches. -/
def stripTags (l : List Char) : List Char :=
  stripTagsGo l.length l

/-- Second substitution of clean_text (vector_db_builder.py line 31): every
character that is neither a word character nor whitespace becomes a space. -/
def mapNonWord (l : List Char) : List Char :=
  l.map (fun c => if pyIsWord c || pyIsSpace c then c else ' ')

/-- Third substitution of clean_text (vector_db_builder.py line 32): replace
each maximal run of whitespace by a single space. Formulated with one
character of lookahead: inside a run all characters but the last are dropped
and the last becomes the single space, which produces the same string as
replacing the run at its first character. -/
def collapseWs : List Char → List Char
  | [] => []
  | [c] => if pyIsSpace c then [' '] else [c]
  | c :: c' :: cs =>
    if pyIsSpace c && pyIsSpace c' then collapseWs (c' :: cs)
    else (if pyIsSpace c then ' ' else c) :: collapseWs (c' :: cs)

/-- Python str.strip: remove leading and trailing whitespace. -/
def pyStrip (l : List Char) : List Char :=
  ((l.dropWhile pyIsSpace).reverse.dropWhile pyIsSpace).reverse

/-- clean_text (vector_db_builder.py lines 23-33): strip tags, replace
punctuation by spaces, collapse whitespace runs, trim. The initial guard
returning the empty string for empty input agrees with the pipeline on empty
input and needs no separate branch. -/
def clean_text (s : String) : String :=
  String.mk (pyStrip (collapseWs (mapNonWord (stripTags s.data))))

/-- Python str.strip on a String value, used for the truthiness guard
if cleaned_text.strip() of the normalizer. -/
def pyStripStr (s : String) : String :=
  String.mk (pyStrip s.data)

/-- A JIRA ticket row as read from the CSV by process_jira_data, with the
fields the normalizer consumes. -/
structure JiraTicket where
  key : String
  summary : String
  description : String
  status : String
  priority : String
  issue_type : String
  url : String
  assignee : String
  reporter : String
  created : String
  updated : String
  labels : List String
  components : List String
deriving DecidableEq

/-- A Confluence page row as read from the CSV by process_confluence_data. -/
structure ConfluencePage where
  id : String
  title : String
  content : String
  space_key : String
  space_name : String
  version : String
  created : String
  url : String
deriving DecidableEq

/-- The composed full_text of a ticket (vector_db_builder.py line 91), the
f-string
title newline newline description newline newline Status: status newline
Priority: priority newline Type: issue_type, where title is the summary
field. -/
def jira_full_text (t : JiraTicket) : String :=
  t.summary ++ "\n\n" ++ t.description ++ "\n\nStatus: " ++ t.status ++
    "\nPriority: " ++ t.priority ++ "\nType: " ++ t.issue_type

/-- The composed full_text of a wiki page (vector_db_builder.py line 137),
the f-string title newline newline Space: space_name newline newline
content. -/
def confluence_full_text (p : ConfluencePage) : String :=
  p.title ++ "\n\nSpace: " ++ p.space_name ++ "\n\n" ++ p.content

/-- process_jira_data (vector_db_builder.py lines 69-116): per ticket, compose
full_text, clean it, and keep a document exactly when the cleaned text strips
to a non-empty string (the truthiness of cleaned_text.strip()). -/
def process_jira_data (tickets : List JiraTicket) : List Doc :=
  tickets.filterMap (fun t =>
    let cleaned := clean_text (jira_full_text t)
    if pyStripStr cleaned ≠ "" then
      some { text := cleaned, source := "jira", source_id := t.key,
             title := t.summary, url := t.url,
             metadata := Metadata.jira t.status t.priority t.issue_type
               t.assignee t.reporter t.created t.updated t.labels t.components }
    else none)

/-- process_confluence_data (vector_db_builder.py lines 118-157): per page,
compose full_text, clean it, and keep a document exactly when the cleaned
text strips to a non-empty string. -/
def process_confluence_data (pages : List ConfluencePage) : List Doc :=
  pages.filterMap (fun p =>
    let cleaned := clean_text (confluence_full_text p)
    if pyStripStr cleaned ≠ "" then
      some { text := cleaned, source := "confluence", source_id := p.id,
             title := p.title, url := p.url,
             metadata := Metadata.confluence p.space_key p.space_name
               p.version p.created }
    else none)

/-- Batched embedding loop of create_vector_db (vector_db_builder.py lines
224-231): for i in range(0, len(texts), 32) encode texts[i:i+32] and extend
the embeddings list. The embedding model is the abstract parameter f over an
abstract vector type. -/
def encodeBatches {α : Type} (f : String → α) (ts : List String) : List α :=
  match ts with
  | [] => []
  | t :: rest =>
    ((t :: rest).take 32).map f ++ encodeBatches f ((t :: rest).drop 32)
termination_by ts.length
decreasing_by
· simp only [List.length_drop, List.length_cons]
  omega

/-- Rows of the FAISS index built by create_vector_db (vector_db_builder.py
lines 217-243): batched embeddings of the document texts, each row normalized
in place by faiss.normalize_L2 before index.add; normalize is the abstract
row normalization. -/
def create_vector_db_rows {α : Type} (f : String → α) (normalize : α → α)
    (docs : List Doc) : List α :=
  (encodeBatches f (docs.map Doc.text)).map normalize

/-- The persisted state written by save_vector_db (vector_db_builder.py lines
245-286): the serialized index rows, the pickled documents list, and the
total_documents field of the pointer record latest_paths.json. -/
structure SavedDB (α : Type) where
  index_rows : List α
  documents : List Doc
  total_documents : Nat

/-- save_vector_db: writes the index as-is, pickles the documents list as-is,
and writes total_documents = len(documents) into the pointer record. -/
def save_vector_db {α : Type} (rows : List α) (docs : List Doc) : SavedDB α :=
  { index_rows := rows, documents := docs, total_documents := docs.length }

/-! Concrete values used by witnesses and counterexamples. -/

/-- A concrete JIRA-sourced document. -/
def exDoc1 : Doc :=
  { text := "login fails on safari", source := "jira", source_id := "ISSUE-1",
    title := "Login fails on Safari", url := "https://x/ISSUE-1",
    metadata := Metadata.jira ("Open") ("High") ("Bug") ("alice") ("bob")
      ("2024-01-01") ("2024-01-02") [] [] }

/-- A concrete artifact-derived document with an empty url. -/
def exArtifactDoc1 : Doc :=
  { text := "image analysis one", source := "text_file", source_id := "img1",
    title := "img1", url := "",
    metadata := Metadata.text_file ("img1.txt") ("text") }

/-- A second artifact-derived document with an empty url, distinct from the
first. -/
def exArtifactDoc2 : Doc :=
  { text := "pdf extract two", source := "text_file", source_id := "pdf2",
    title := "pdf2", url := "",
    metadata := Metadata.text_file ("pdf2.txt") ("text") }

/-- Result carrying the first empty-url document. -/
def exRes1 : SearchResult := { doc := exArtifactDoc1, similarity_score := 1/2 }

/-- Result carrying the second empty-url document. -/
def exRes2 : SearchResult := { doc := exArtifactDoc2, similarity_score := 9/20 }

/-- A concrete retrieval function: the first query finds the first empty-url
document, the second query finds the second. -/
def exRetrieve : String → List SearchResult :=
  fun q => if q = "q1" then [exRes1] else [exRes2]

/-! Helper lemmas about the stable sort. -/

theorem scoreDescLe_trans (a b c : SearchResult) (hab : scoreDescLe a b = true)
    (hbc : scoreDescLe b c = true) : scoreDescLe a c = true := by
  simp only [scoreDescLe, decide_eq_true_eq] at hab hbc ⊢
  exact le_trans hbc hab

theorem scoreDescLe_total (a b : SearchResult) :
    (scoreDescLe a b || scoreDescLe b a) = true := by
  simp only [scoreDescLe, Bool.or_eq_true, decide_eq_true_eq]
  exact le_total b.similarity_score a.similarity_score

theorem mergeSort_single {α : Type} (le : α → α → Bool) (a : α) :
    [a].mergeSort le = [a] :=
  List.perm_singleton.mp (List.mergeSort_perm [a] le)

/-! Claims C2, C3, C4, C5. -/

/-- C2: for every loaded documents list and every (score, row_position)
candidate returned by the index search, a candidate whose row position is at
least len(documents) is skipped by search_similar: it is not dereferenced and
contributes nothing to the returned results, which equal the results computed
without that candidate. -/
theorem search_similar_skips_out_of_range (documents : List Doc)
    (threshold : ℚ) (c₁ c₂ : List (ℚ × Int)) (s : ℚ) (i : Int)
    (h : (documents.length : Int) ≤ i) :
    search_similar documents threshold (c₁ ++ (s, i) :: c₂) =
      search_similar documents threshold (c₁ ++ c₂) := by
  unfold search_similar search_similar_raw
  rw [List.filterMap_append, List.filterMap_append,
    List.filterMap_cons_none]
  unfold keepCandidate
  rw [if_neg]
  intro hc
  exact absurd hc.1 (not_lt.mpr h)

/-- Witness for C2 at a concrete input: a candidate with row position 5
against a one-document corpus is dropped. -/
theorem search_similar_skips_out_of_range_witness :
    ((([exDoc1] : List Doc).length : Int) ≤ 5) ∧
      search_similar [exDoc1] (2/5) ([] ++ ((1 : ℚ), (5 : Int)) :: []) =
        search_similar [exDoc1] (2/5) ([] ++ []) :=
  ⟨by decide,
    search_similar_skips_out_of_range [exDoc1] (2/5) [] [] 1 5 (by decide)⟩

theorem pyGet_neg_one {α : Type} (ds : List α) (d : α) :
    pyGet (ds ++ [d]) (-1) = some d := by
  unfold pyGet
  rw [if_neg (by norm_num)]
  rw [if_pos (by simp [List.length_append])]
  have h1 : ((-1 : Int) + ((ds ++ [d]).length : Int)).toNat = ds.length := by
    simp [List.length_append]
  rw [h1, List.getElem?_concat_length]

/-- C3: the bounds test of search_similar only requires idx < len(documents)
(plus the threshold test), so the FAISS sentinel row position -1 passes it and
documents[-1], the last document of the corpus under Python negative
indexing, is dereferenced and returned instead of being excluded;
search_documents keeps such a candidate through the same idx < len(documents)
check. -/
theorem negative_index_dereferences_last (ds : List Doc) (d : Doc)
    (threshold s : ℚ) (h : threshold ≤ s) :
    search_similar (ds ++ [d]) threshold [(s, -1)] =
        [{ doc := d, similarity_score := s }] ∧
      search_documents_raw (ds ++ [d]) [(s, -1)] =
        [{ rank := 1, similarity_score := s, doc := d }] := by
  have hlt : (-1 : Int) < ((ds ++ [d]).length : Int) := by
    have : (0 : Int) ≤ ((ds ++ [d]).length : Int) := Int.ofNat_nonneg _
    omega
  have hraw : search_similar_raw (ds ++ [d]) threshold [(s, -1)] =
      [{ doc := d, similarity_score := s }] := by
    unfold search_similar_raw keepCandidate
    rw [List.filterMap_cons, List.filterMap_nil]
    rw [if_pos ⟨hlt, h⟩, pyGet_neg_one]
    rfl
  constructor
  · unfold search_similar
    rw [hraw]
    exact mergeSort_single _ _
  · unfold search_documents_raw
    rw [List.enum]
    simp only [List.enumFrom, List.filterMap_cons, List.filterMap_nil]
    rw [if_pos hlt, pyGet_neg_one]
    rfl

/-- Witness for C3 at a concrete input: a corpus of one document and the
candidate (score 1/2, row -1) at threshold 2/5. -/
theorem negative_index_dereferences_last_witness :
    ((2/5 : ℚ) ≤ 1/2) ∧
      (search_similar ([] ++ [exDoc1]) (2/5) [((1/2 : ℚ), -1)] =
          [{ doc := exDoc1, similarity_score := 1/2 }] ∧
        search_documents_raw ([] ++ [exDoc1]) [((1/2 : ℚ), -1)] =
          [{ rank := 1, similarity_score := 1/2, doc := exDoc1 }]) :=
  ⟨by norm_num,
    negative_index_dereferences_last [] exDoc1 (2/5) (1/2) (by norm_num)⟩

theorem search_similar_raw_single_none (documents : List Doc) (threshold : ℚ)
    (s : ℚ) (i : Int)
    (h : ¬(i < (documents.length : Int) ∧ threshold ≤ s)) :
    search_similar_raw documents threshold [(s, i)] = [] := by
  unfold search_similar_raw
  rw [List.filterMap_cons_none, List.filterMap_nil]
  unfold keepCandidate
  rw [if_neg h]

theorem search_similar_single_none (documents : List Doc) (threshold : ℚ)
    (s : ℚ) (i : Int)
    (h : ¬(i < (documents.length : Int) ∧ threshold ≤ s)) :
    search_similar documents threshold [(s, i)] = [] := by
  unfold search_similar
  rw [search_similar_raw_single_none documents threshold s i h,
    List.mergeSort_nil]

/-- C4: the /search-tickets route runs the retrieval at the primary threshold
0.4; when and only when that pass yields zero results it re-runs the whole
retrieval once at threshold 0.3 and responds with exactly that second result
set, and when the first pass is non-empty it responds with the first pass
untouched. -/
theorem route_threshold_fallback (documents : List Doc)
    (cands : List (ℚ × Int)) :
    (search_similar documents (2/5) cands ≠ [] →
        search_tickets_route documents cands =
          search_similar documents (2/5) cands) ∧
      (search_similar documents (2/5) cands = [] →
        search_tickets_route documents cands =
          search_similar documents (3/10) cands) := by
  constructor
  · intro h
    unfold search_tickets_route
    rw [if_neg]
    simp [List.isEmpty_iff, h]
  · intro h
    unfold search_tickets_route
    rw [if_pos]
    simp [List.isEmpty_iff, h]

/-- Witness for C4 at a concrete input: a candidate scoring 7/20 (below 2/5
but above 3/10), where the first pass is empty and the route answers with the
0.3-threshold results. -/
theorem route_threshold_fallback_witness :
    search_tickets_route [exDoc1] [((7/20 : ℚ), (0 : Int))] =
      search_similar [exDoc1] (3/10) [((7/20 : ℚ), (0 : Int))] :=
  (route_threshold_fallback [exDoc1] [((7/20 : ℚ), (0 : Int))]).2
    (search_similar_single_none [exDoc1] (2/5) (7/20) 0
      (by intro hc; have h2 := hc.2; norm_num at h2))

/-- C5 counterexample: a load-fatal outcome (pointer record absent) and a
legitimate zero-match outcome over a non-empty corpus produce the identical
empty return value of search_tickets, so the caller cannot distinguish them;
this refutes the claim that load-fatal conditions are surfaced distinguishably
from legitimate zero matches. -/
theorem search_tickets_load_error_cex :
    search_tickets (Except.error ("latest_paths.json missing")) (2/5) =
        search_tickets (Except.ok ([exDoc1], [((0 : ℚ), (0 : Int))])) (2/5) ∧
      search_tickets (Except.ok ([exDoc1], [((0 : ℚ), (0 : Int))])) (2/5) = [] ∧
      ([exDoc1] : List Doc) ≠ [] := by
  have hok : search_tickets (Except.ok ([exDoc1], [((0 : ℚ), (0 : Int))])) (2/5) = [] := by
    show search_similar [exDoc1] (2/5) [((0 : ℚ), (0 : Int))] = []
    exact search_similar_single_none [exDoc1] (2/5) 0 0
      (by intro hc; have h2 := hc.2; norm_num at h2)
  refine ⟨?_, hok, by decide⟩
  rw [hok]
  rfl

/-- C5 amended: a load-fatal condition inside search_tickets is caught and
collapsed to the empty list, the same value returned for a legitimate
zero-match outcome, so the two are not distinguishable from the return value
(the failure is only reported as a printed message). -/
theorem search_tickets_load_error_collapses (e : String) (threshold : ℚ)
    (docs : List Doc) (cands : List (ℚ × Int))
    (h : search_similar docs threshold cands = []) :
    search_tickets (Except.error e) threshold =
      search_tickets (Except.ok (docs, cands)) threshold := by
  show ([] : List SearchResult) = search_similar docs threshold cands
  exact h.symm

/-- Witness for the amended C5 at a concrete input: an error outcome and a
zero-match outcome (candidate row out of range) coincide. -/
theorem search_tickets_load_error_collapses_witness :
    (search_similar [exDoc1] (2/5) [((0 : ℚ), (1 : Int))] = []) ∧
      search_tickets (Except.error ("pointer missing")) (2/5) =
        search_tickets (Except.ok ([exDoc1], [((0 : ℚ), (1 : Int))])) (2/5) := by
  have h : search_similar [exDoc1] (2/5) [((0 : ℚ), (1 : Int))] = [] :=
    search_similar_single_none [exDoc1] (2/5) 0 1
      (by intro hc; have h1 := hc.1; simp at h1)
  exact ⟨h, search_tickets_load_error_collapses ("pointer missing") (2/5)
    [exDoc1] [((0 : ℚ), (1 : Int))] h⟩

/-! Claims C6 and C7. -/

/-- C6: for a fixed loaded snapshot and a fixed index output, lowering the
threshold never removes a result: every result returned by search_similar at
the higher threshold is also returned at the lower threshold (in particular
the 0.3-threshold result set is a superset of the 0.4-threshold one). -/
theorem threshold_monotone_superset (documents : List Doc)
    (cands : List (ℚ × Int)) (t₁ t₂ : ℚ) (hle : t₁ ≤ t₂) :
    ∀ r ∈ search_similar documents t₂ cands,
      r ∈ search_similar documents t₁ cands := by
  intro r hr
  rw [search_similar, (List.mergeSort_perm _ scoreDescLe).mem_iff] at hr ⊢
  rw [search_similar_raw, List.mem_filterMap] at hr ⊢
  obtain ⟨sc, hsc, hkeep⟩ := hr
  refine ⟨sc, hsc, ?_⟩
  unfold keepCandidate at hkeep ⊢
  by_cases hc : sc.2 < (documents.length : Int) ∧ t₂ ≤ sc.1
  · rw [if_pos hc] at hkeep
    rw [if_pos ⟨hc.1, le_trans hle hc.2⟩]
    exact hkeep
  · rw [if_neg hc] at hkeep
    cases hkeep

theorem search_similar_raw_single_some (documents : List Doc) (threshold : ℚ)
    (s : ℚ) (i : Int) (d : Doc)
    (h : i < (documents.length : Int) ∧ threshold ≤ s)
    (hget : pyGet documents i = some d) :
    search_similar_raw documents threshold [(s, i)] =
      [{ doc := d, similarity_score := s }] := by
  unfold search_similar_raw keepCandidate
  rw [List.filterMap_cons, List.filterMap_nil]
  rw [if_pos h, hget]
  rfl

/-- Witness for C6 at a concrete input: a single candidate scoring 1/2 is
kept at threshold 2/5 and hence also at threshold 3/10. -/
theorem threshold_monotone_superset_witness :
    ((3/10 : ℚ) ≤ 2/5) ∧
      ({ doc := exDoc1, similarity_score := 1/2 } : SearchResult) ∈
        search_similar [exDoc1] (3/10) [((1/2 : ℚ), (0 : Int))] :=
  ⟨by norm_num,
    threshold_monotone_superset [exDoc1] [((1/2 : ℚ), (0 : Int))] (3/10) (2/5)
      (by norm_num)
      { doc := exDoc1, similarity_score := 1/2 }
      (by
        unfold search_similar
        rw [search_similar_raw_single_some [exDoc1] (2/5) (1/2) 0 exDoc1
          ⟨by simp, by norm_num⟩ (by rfl)]
        rw [mergeSort_single]
        exact List.mem_singleton.mpr rfl)⟩

/-- C7: every result list of search_similar is sorted by similarity_score in
non-increasing order, and the sort is stable: for every score value, the
results carrying exactly that score appear in the same order as in the
pre-sort kept-candidate list (which lists them in index order). -/
theorem ranking_desc_and_stable (documents : List Doc) (threshold : ℚ)
    (cands : List (ℚ × Int)) :
    List.Pairwise
        (fun a b : SearchResult => b.similarity_score ≤ a.similarity_score)
        (search_similar documents threshold cands) ∧
      ∀ s : ℚ,
        (search_similar documents threshold cands).filter
            (fun r => decide (r.similarity_score = s)) =
          (search_similar_raw documents threshold cands).filter
            (fun r => decide (r.similarity_score = s)) := by
  constructor
  · have hs := List.sorted_mergeSort scoreDescLe_trans scoreDescLe_total
      (search_similar_raw documents threshold cands)
    exact hs.imp (fun h => of_decide_eq_true h)
  · intro s
    unfold search_similar
    set raw := search_similar_raw documents threshold cands with hraw
    set p : SearchResult → Bool := fun r => decide (r.similarity_score = s)
      with hp
    have hpair : (raw.filter p).Pairwise (fun a b => scoreDescLe a b = true) := by
      apply List.pairwise_of_forall_mem_list
      intro a ha b hb
      have ha2 : a.similarity_score = s :=
        of_decide_eq_true (List.mem_filter.mp ha).2
      have hb2 : b.similarity_score = s :=
        of_decide_eq_true (List.mem_filter.mp hb).2
      simp [scoreDescLe, ha2, hb2]
    have hsubl : (raw.filter p).Sublist (raw.mergeSort scoreDescLe) :=
      List.sublist_mergeSort scoreDescLe_trans scoreDescLe_total hpair
        (List.filter_sublist raw)
    have h2 : ((raw.filter p).filter p).Sublist
        ((raw.mergeSort scoreDescLe).filter p) := hsubl.filter p
    have h3 : (raw.filter p).filter p = raw.filter p := by
      rw [List.filter_filter]
      simp
    rw [h3] at h2
    have h4 : ((raw.mergeSort scoreDescLe).filter p).length =
        (raw.filter p).length :=
      ((List.mergeSort_perm raw scoreDescLe).filter p).length_eq
    exact (h2.eq_of_length h4.symm).symm

/-! Claim C1. -/

theorem dedupGo_filter (u : String) (l : List SearchResult) :
    ∀ seen : List String,
      (dedupGo l seen).filter (fun r => r.doc.url == u) =
        if u ∈ seen then [] else (l.find? (fun r => r.doc.url == u)).toList := by
  induction l with
  | nil =>
    intro seen
    by_cases hu : u ∈ seen <;> simp [dedupGo, hu]
  | cons r rest ih =>
    intro seen
    simp only [dedupGo]
    by_cases hmem : r.doc.url ∈ seen
    · rw [if_pos hmem, ih seen]
      by_cases hu : u ∈ seen
      · rw [if_pos hu, if_pos hu]
      · have hne : (r.doc.url == u) = false := by
          rw [beq_eq_false_iff_ne]
          intro hcontra
          exact hu (hcontra ▸ hmem)
        rw [if_neg hu, if_neg hu, List.find?_cons_of_neg _ (by simp [hne])]
    · rw [if_neg hmem, List.filter_cons, ih (r.doc.url :: seen)]
      by_cases hru : r.doc.url = u
      · have hu : u ∉ seen := fun hc => hmem (by rw [hru]; exact hc)
        have hbeq : (r.doc.url == u) = true := beq_iff_eq.mpr hru
        have hucons : u ∈ r.doc.url :: seen :=
          List.mem_cons.mpr (Or.inl hru.symm)
        rw [if_pos hucons, if_neg hu, hbeq]
        have hfind : List.find? (fun x => x.doc.url == u) (r :: rest) = some r := by
          simp [List.find?_cons, hbeq]
        rw [hfind]
        simp
      · have hbeq : (r.doc.url == u) = false := beq_eq_false_iff_ne.mpr hru
        rw [hbeq]
        by_cases hu : u ∈ seen
        · rw [if_pos (List.mem_cons_of_mem _ hu), if_pos hu]
          simp
        · have hucons : u ∉ r.doc.url :: seen := by
            intro hc
            rcases List.mem_cons.mp hc with h | h
            · exact hru h.symm
            · exact hu h
          rw [if_neg hucons, if_neg hu,
            List.find?_cons_of_neg _ (by simp [hbeq])]
          simp

/-- C1 amended: search_related_tickets concatenates the per-query retrieval
results in query order and deduplicates by url keeping the first occurrence
in concatenation order; the empty string is treated like any other url, so
for every url value (the empty string included) the merged output contains
exactly the earliest result carrying it. Stated as: filtering the merged
output by any url u yields exactly the first result with url u of the
concatenated results. -/
theorem dedup_by_url_first_occurrence (retrieve : String → List SearchResult)
    (queries : List String) (u : String) :
    (search_related_tickets retrieve queries).filter
        (fun r => r.doc.url == u) =
      (((queries.map retrieve).flatten).find?
        (fun r => r.doc.url == u)).toList := by
  rw [search_related_tickets, dedupGo_filter]
  rw [if_neg (List.not_mem_nil u)]

/-- C1 counterexample: two queries each returning one empty-url document; the
second empty-url document occurs in the concatenated results but is dropped
from the merged output, refuting the stated policy that empty-url Documents
are never treated as duplicates and are all retained. -/
theorem dedup_empty_url_dropped_cex :
    search_related_tickets exRetrieve ["q1", "q2"] = [exRes1] ∧
      exRes2 ∈ ((["q1", "q2"].map exRetrieve).flatten) ∧
      exRes1.doc.url = "" ∧ exRes2.doc.url = "" ∧
      exRes2 ∉ search_related_tickets exRetrieve ["q1", "q2"] := by
  have h1 : search_related_tickets exRetrieve ["q1", "q2"] = [exRes1] := rfl
  have hflat : (["q1", "q2"].map exRetrieve).flatten = [exRes1, exRes2] := rfl
  refine ⟨h1, ?_, rfl, rfl, ?_⟩
  · rw [hflat]
    exact List.mem_cons.mpr (Or.inr (List.mem_singleton.mpr rfl))
  · rw [h1]
    intro hmemc
    have heq : exRes2 = exRes1 := List.mem_singleton.mp hmemc
    have hid : exRes2.doc.source_id = exRes1.doc.source_id := by rw [heq]
    simp [exRes1, exRes2, exArtifactDoc1, exArtifactDoc2] at hid

/-! Lemmas about the cleaning pipeline, for claim C8. -/

theorem mem_mapNonWord {c : Char} {l : List Char} (h : c ∈ mapNonWord l) :
    (pyIsWord c || pyIsSpace c) = true := by
  rw [mapNonWord, List.mem_map] at h
  obtain ⟨a, _, rfl⟩ := h
  by_cases ha : (pyIsWord a || pyIsSpace a) = true
  · simp [ha]
  · rw [if_neg ha]
    decide

theorem mem_collapseWs {c : Char} :
    ∀ {l : List Char}, c ∈ collapseWs l → c = ' ' ∨ c ∈ l := by
  intro l
  induction l with
  | nil => intro h; simp [collapseWs] at h
  | cons a rest ih =>
    cases rest with
    | nil =>
      intro h
      by_cases ha : pyIsSpace a = true
      · simp [collapseWs, ha] at h
        exact Or.inl h
      · simp [collapseWs, ha] at h
        exact Or.inr (by simp [h])
    | cons b bs =>
      intro h
      by_cases hab : (pyIsSpace a && pyIsSpace b) = true
      · rw [collapseWs, if_pos hab] at h
        rcases ih h with h2 | h2
        · exact Or.inl h2
        · exact Or.inr (List.mem_cons_of_mem a h2)
      · rw [collapseWs, if_neg hab] at h
        rcases List.mem_cons.mp h with h2 | h2
        · by_cases ha : pyIsSpace a = true
          · rw [if_pos ha] at h2
            exact Or.inl h2
          · rw [if_neg ha] at h2
            exact Or.inr (h2 ▸ List.mem_cons_self a (b :: bs))
        · rcases ih h2 with h3 | h3
          · exact Or.inl h3
          · exact Or.inr (List.mem_cons_of_mem a h3)

theorem collapseWs_head_space :
    ∀ (l : List Char) (y : Char), (collapseWs l).head? = some y →
      pyIsSpace y = true → ∃ x, l.head? = some x ∧ pyIsSpace x = true := by
  intro l y hy hsp
  cases l with
  | nil => simp [collapseWs] at hy
  | cons a rest =>
    cases rest with
    | nil =>
      by_cases ha : pyIsSpace a = true
      · exact ⟨a, rfl, ha⟩
      · simp [collapseWs, ha] at hy
        rw [← hy] at hsp
        exact absurd hsp (by simp [ha])
    | cons b bs =>
      by_cases hab : (pyIsSpace a && pyIsSpace b) = true
      · exact ⟨a, rfl, (Bool.and_eq_true _ _ |>.mp hab).1⟩
      · by_cases ha : pyIsSpace a = true
        · exact ⟨a, rfl, ha⟩
        · rw [collapseWs, if_neg hab, if_neg ha] at hy
          simp only [List.head?_cons, Option.some.injEq] at hy
          rw [← hy] at hsp
          exact absurd hsp (by simp [ha])

theorem collapseWs_chain (l : List Char) :
    (collapseWs l).Chain'
      (fun a b => ¬(pyIsSpace a = true ∧ pyIsSpace b = true)) := by
  induction l with
  | nil => simp [collapseWs]
  | cons a rest ih =>
    cases rest with
    | nil =>
      by_cases ha : pyIsSpace a = true <;> simp [collapseWs, ha]
    | cons b bs =>
      by_cases hab : (pyIsSpace a && pyIsSpace b) = true
      · rw [collapseWs, if_pos hab]
        exact ih
      · rw [collapseWs, if_neg hab, List.chain'_cons']
        refine ⟨?_, ih⟩
        intro y hy hcontra
        obtain ⟨hx, hysp⟩ := hcontra
        have hhead : (collapseWs (b :: bs)).head? = some y := hy
        obtain ⟨x, hxhead, hxsp⟩ := collapseWs_head_space (b :: bs) y hhead hysp
        simp only [List.head?_cons, Option.some.injEq] at hxhead
        rw [← hxhead] at hxsp
        have ha : pyIsSpace a = false := by
          cases hA : pyIsSpace a
          · rfl
          · exact absurd (by simp [hA, hxsp]) hab
        rw [if_neg (by simp [ha])] at hx
        rw [ha] at hx
        cases hx

theorem mem_pyStrip {c : Char} {l : List Char} (h : c ∈ pyStrip l) : c ∈ l := by
  unfold pyStrip at h
  rw [List.mem_reverse] at h
  have h2 := (List.dropWhile_sublist pyIsSpace).subset h
  rw [List.mem_reverse] at h2
  exact (List.dropWhile_sublist pyIsSpace).subset h2

theorem pyStrip_chain {R : Char → Char → Prop}
    (hsymm : ∀ a b, R a b → R b a) {l : List Char} (h : l.Chain' R) :
    (pyStrip l).Chain' R := by
  unfold pyStrip
  have h1 : (l.dropWhile pyIsSpace).Chain' R :=
    List.Chain'.infix h ( List.IsSuffix.isInfix (List.dropWhile_suffix pyIsSpace))
  have h2 : ((l.dropWhile pyIsSpace).reverse).Chain' R := by
    rw [List.chain'_reverse]
    exact h1.imp (fun a b hab => hsymm a b hab)
  have h3 : (((l.dropWhile pyIsSpace).reverse).dropWhile pyIsSpace).Chain' R :=
    List.Chain'.infix h2 ( List.IsSuffix.isInfix (List.dropWhile_suffix pyIsSpace))
  rw [List.chain'_reverse]
  exact h3.imp (fun a b hab => hsymm a b hab)

theorem lt_not_mem_clean_text (s : String) : '<' ∉ (clean_text s).data := by
  intro h
  have h0 : '<' ∈ pyStrip (collapseWs (mapNonWord (stripTags s.data))) := h
  have h1 : '<' ∈ collapseWs (mapNonWord (stripTags s.data)) := mem_pyStrip h0
  rcases mem_collapseWs h1 with h2 | h2
  · exact absurd h2 (by decide)
  · exact absurd (mem_mapNonWord h2) (by decide)

/-! Claim C8. -/

/-- C8: for any input text, clean_text output contains no angle-bracket tag
sequence and no run of two or more consecutive whitespace characters, and the
normalizer drops every record whose cleaned text is empty, so every produced
document has non-empty text. -/
theorem clean_text_normalization (s : String) (tickets : List JiraTicket)
    (pages : List ConfluencePage) :
    (∀ l₁ mid l₂ : List Char,
        (clean_text s).data ≠ l₁ ++ '<' :: (mid ++ '>' :: l₂)) ∧
      (clean_text s).data.Chain'
        (fun a b => ¬(pyIsSpace a = true ∧ pyIsSpace b = true)) ∧
      (∀ d ∈ process_jira_data tickets, d.text ≠ "") ∧
      (∀ d ∈ process_confluence_data pages, d.text ≠ "") := by
  refine ⟨?_, ?_, ?_, ?_⟩
  · intro l₁ mid l₂ heq
    apply lt_not_mem_clean_text s
    rw [heq]
    exact List.mem_append.mpr (Or.inr (List.mem_cons_self _ _))
  · show (pyStrip (collapseWs (mapNonWord (stripTags s.data)))).Chain' _
    exact pyStrip_chain (fun a b hab hc => hab ⟨hc.2, hc.1⟩)
      (collapseWs_chain _)
  · intro d hd
    simp only [process_jira_data, List.mem_filterMap] at hd
    obtain ⟨t, _, ht⟩ := hd
    by_cases hc : pyStripStr (clean_text (jira_full_text t)) ≠ ""
    · rw [if_pos hc] at ht
      rw [Option.some.injEq] at ht
      intro he
      apply hc
      rw [← ht] at he
      show pyStripStr (clean_text (jira_full_text t)) = ""
      rw [show clean_text (jira_full_text t) = "" from he]
      rfl
    · rw [if_neg hc] at ht
      cases ht
  · intro d hd
    simp only [process_confluence_data, List.mem_filterMap] at hd
    obtain ⟨p, _, hp⟩ := hd
    by_cases hc : pyStripStr (clean_text (confluence_full_text p)) ≠ ""
    · rw [if_pos hc] at hp
      rw [Option.some.injEq] at hp
      intro he
      apply hc
      rw [← hp] at he
      show pyStripStr (clean_text (confluence_full_text p)) = ""
      rw [show clean_text (confluence_full_text p) = "" from he]
      rfl
    · rw [if_neg hc] at hp
      cases hp

/-- A concrete ticket row containing markup and punctuation. -/
def exTicket : JiraTicket :=
  { key := "T-1", summary := "Add dark mode", description := "Users want a dark <b>toggle</b>!",
    status := "Open", priority := "High", issue_type := "Story",
    url := "https://x/T-1", assignee := "", reporter := "", created := "",
    updated := "", labels := [], components := [] }

/-- The document that processing the concrete ticket produces. -/
def exTicketDoc : Doc :=
  { text := clean_text (jira_full_text exTicket), source := "jira",
    source_id := "T-1", title := "Add dark mode", url := "https://x/T-1",
    metadata := Metadata.jira ("Open") ("High") ("Story") ("") ("") ("") ("")
      [] [] }

/-- Witness for C8 at a concrete input: the concrete ticket's document is
produced by the normalizer and its text is non-empty. -/
theorem clean_text_normalization_witness :
    (exTicketDoc ∈ process_jira_data [exTicket]) ∧ exTicketDoc.text ≠ "" :=
  ⟨by decide,
    (clean_text_normalization ("") [exTicket] []).2.2.1 exTicketDoc (by decide)⟩

/-! Claims C9 and C10. -/

theorem encodeBatches_eq_map {α : Type} (f : String → α) (ts : List String) :
    encodeBatches f ts = ts.map f := by
  have key : ∀ (n : Nat) (l : List String), l.length ≤ n →
      encodeBatches f l = l.map f := by
    intro n
    induction n with
    | zero =>
      intro l h
      have hl : l = [] := List.eq_nil_of_length_eq_zero (Nat.le_zero.mp h)
      rw [hl]
      simp [encodeBatches]
    | succ n ih =>
      intro l h
      cases l with
      | nil => simp [encodeBatches]
      | cons t rest =>
        have h' : rest.length ≤ n := by
          simp only [List.length_cons] at h
          omega
        rw [encodeBatches]
        rw [ih ((t :: rest).drop 32)
          (by simp only [List.length_drop, List.length_cons]; omega)]
        rw [← List.map_append, List.take_append_drop]
  exact key ts.length ts (le_refl _)

/-- C9: for every document list, row i of the built index is the normalized
embedding of documents[i]'s text (row correspondence survives the fixed-size
batching), the persisted documents list is exactly the input list in its row
order, and the pointer record's total_documents equals the number of
persisted documents. -/
theorem index_row_correspondence {α : Type} (f : String → α)
    (normalize : α → α) (docs : List Doc) :
    (∀ i : Nat,
        (save_vector_db (create_vector_db_rows f normalize docs)
            docs).index_rows[i]? =
          ((save_vector_db (create_vector_db_rows f normalize docs)
              docs).documents[i]?).map (fun d => normalize (f d.text))) ∧
      (save_vector_db (create_vector_db_rows f normalize docs)
          docs).documents = docs ∧
      (save_vector_db (create_vector_db_rows f normalize docs)
          docs).total_documents =
        (save_vector_db (create_vector_db_rows f normalize docs)
            docs).documents.length := by
  refine ⟨?_, rfl, rfl⟩
  intro i
  show (create_vector_db_rows f normalize docs)[i]? =
    (docs[i]?).map (fun d => normalize (f d.text))
  unfold create_vector_db_rows
  rw [encodeBatches_eq_map]
  rw [List.getElem?_map, List.getElem?_map, List.getElem?_map]
  cases docs[i]? with
  | none => rfl
  | some d => rfl

/-- C10: before cleaning, the ticket text is composed as the title (the
summary field), then the description, then the labelled fields
Status: status, Priority: priority and Type: issue_type, in that order; the
wiki-page text is composed as the title, then Space: space name, then the
page content, in that order (the existential gaps are the literal newline
separators of the f-strings). -/
theorem composition_order (t : JiraTicket) (p : ConfluencePage) :
    (∃ g₁ g₂ g₃ g₄ : String,
        jira_full_text t =
          t.summary ++ g₁ ++ t.description ++ g₂ ++ ("Status: " ++ t.status) ++
            g₃ ++ ("Priority: " ++ t.priority) ++ g₄ ++
            ("Type: " ++ t.issue_type)) ∧
      (∃ h₁ h₂ : String,
        confluence_full_text p =
          p.title ++ h₁ ++ ("Space: " ++ p.space_name) ++ h₂ ++ p.content) := by
  constructor
  · refine ⟨"\n\n", "\n\n", "\n", "\n", ?_⟩
    unfold jira_full_text
    rw [show ("\n\nStatus: " : String) = "\n\n" ++ "Status: " from rfl,
      show ("\nPriority: " : String) = "\n" ++ "Priority: " from rfl,
      show ("\nType: " : String) = "\n" ++ "Type: " from rfl]
    simp only [String.append_assoc]
  · refine ⟨"\n\n", "\n\n", ?_⟩
    unfold confluence_full_text
    rw [show ("\n\nSpace: " : String) = "\n\n" ++ "Space: " from rfl]
    simp only [String.append_assoc]

end JiraRag
